import Mathlib

/-!
Verification of the BOUT++ mesh / vector-calculus operator layer
(src/field/vecops.cxx and include/bout/mesh.hxx).

Scalar fields are modelled as opaque data expressions tagged with a cell
location; the index-space differencing engine (derivs.cxx, not part of the
analysed sources) is modelled from the specification as opaque expression
constructors that record their operands, the selected method and the
resolved output location.  Field2D and Field3D differ only in memory
layout, which the specification places out of scope, so both are modelled
by a single field type (and likewise Vector2D / Vector3D); the separate
C++ overloads are kept as separate definitions.
-/

/-- Cell locations of staggered fields (bout_types.hxx). -/
inductive CellLoc where
  | CELL_DEFAULT
  | CELL_CENTRE
  | CELL_XLOW
  | CELL_YLOW
  | CELL_ZLOW
  | CELL_VSHIFT
  deriving DecidableEq, Repr

open CellLoc

/-- Differencing method selector (bout_types.hxx); only DIFF_DEFAULT is used
by vecops.cxx, the others stand for the explicit method choices. -/
inductive DiffMethod where
  | DIFF_DEFAULT
  | DIFF_U1
  | DIFF_C2
  | DIFF_C4
  | DIFF_W3
  | DIFF_FFT
  deriving DecidableEq, Repr

open DiffMethod

/-- Vector component selector, used to model the component-name suffixes of
Mesh::get on vectors. -/
inductive VComp where
  | cx
  | cy
  | cz
  deriving DecidableEq, Repr

/-- Variable name as used by the grid data source: a base name plus an
optional component suffix.  The Bool records whether the suffix is of the
underscored form (covariant components) or the plain form (contravariant). -/
structure VarId where
  base : Nat
  suffix : Option (Bool × VComp)
  deriving DecidableEq, Repr

/-- Opaque scalar-field data.  Arithmetic on fields is recorded
symbolically, and each derivative of the differencing engine is an opaque
constructor recording its operands, method and resolved output location. -/
inductive FExpr where
  | var (n : VarId)
  | cst (q : Rat)
  | add (a b : FExpr)
  | sub (a b : FExpr)
  | mul (a b : FExpr)
  | div (a b : FExpr)
  | dX (a : FExpr) (loc : CellLoc)
  | dY (a : FExpr) (loc : CellLoc)
  | dZ (a : FExpr) (loc : CellLoc)
  | vdX (v f : FExpr)
  | vdY (v f : FExpr)
  | vdZ (v f : FExpr)
  | fdX (v f : FExpr) (m : DiffMethod) (loc : CellLoc)
  | fdY (v f : FExpr) (m : DiffMethod) (loc : CellLoc)
  | fdZ (v f : FExpr) (m : DiffMethod) (loc : CellLoc)
  deriving DecidableEq, Repr

/-- Scalar field: opaque data plus the cell location tag.  Models both
Field2D and Field3D (their difference is memory layout, out of scope). -/
structure Field3D where
  data : FExpr
  loc : CellLoc
  deriving DecidableEq, Repr

/-- Field2D is modelled by the same carrier as Field3D. -/
abbrev Field2D := Field3D

/-- Source accessor Field3D::getLocation(). -/
def Field3D.getLocation (f : Field3D) : CellLoc := f.loc

/-- Field constructed from a real constant (e.g. result.y = 0.0); a
default-constructed field is at the centre location. -/
def Field3D.ofConst (q : Rat) : Field3D := ⟨FExpr.cst q, CELL_CENTRE⟩

instance : Add Field3D := ⟨fun a b => ⟨FExpr.add a.data b.data, a.loc⟩⟩
instance : Sub Field3D := ⟨fun a b => ⟨FExpr.sub a.data b.data, a.loc⟩⟩
instance : Mul Field3D := ⟨fun a b => ⟨FExpr.mul a.data b.data, a.loc⟩⟩
instance : Div Field3D := ⟨fun a b => ⟨FExpr.div a.data b.data, a.loc⟩⟩

/-- Vector field: three component fields plus the covariant flag.  Models
both Vector2D and Vector3D. -/
structure Vector3D where
  x : Field3D
  y : Field3D
  z : Field3D
  covariant : Bool
  deriving DecidableEq, Repr

/-- Vector2D is modelled by the same carrier as Vector3D. -/
abbrev Vector2D := Vector3D

/-- Curvilinear metric data read by the operators (coordinates.hxx is not
part of the analysed sources; the field set is exactly the one consumed by
vecops.cxx plus the metric components needed by the covariant and
contravariant conversions, per the specification). -/
structure Coordinates where
  J : Field2D
  Bxy : Field2D
  ShiftTorsion : Field2D
  g_11 : Field2D
  g_12 : Field2D
  g_13 : Field2D
  g_22 : Field2D
  g_23 : Field2D
  g_33 : Field2D
  g11 : Field2D
  g12 : Field2D
  g13 : Field2D
  g22 : Field2D
  g23 : Field2D
  g33 : Field2D
  G1_11 : Field2D
  G1_12 : Field2D
  G1_13 : Field2D
  G1_22 : Field2D
  G1_33 : Field2D
  G2_11 : Field2D
  G2_12 : Field2D
  G2_22 : Field2D
  G2_23 : Field2D
  G2_33 : Field2D
  G3_11 : Field2D
  G3_13 : Field2D
  G3_22 : Field2D
  G3_23 : Field2D
  G3_33 : Field2D
  deriving DecidableEq, Repr

/-- Modelled from the spec: Vector2D/Vector3D::toContravariant (vector2d.cxx
and vector3d.cxx are not under the analysed sources).  The specification
states that converting between the two kinds requires the metric tensor:
when the vector is covariant its indices are raised with the contravariant
metric components and the flag is cleared; otherwise the call is a no-op. -/
def Vector3D.toContravariant (v : Vector3D) (metric : Coordinates) : Vector3D :=
  if v.covariant then
    ⟨metric.g11 * v.x + metric.g12 * v.y + metric.g13 * v.z,
     metric.g12 * v.x + metric.g22 * v.y + metric.g23 * v.z,
     metric.g13 * v.x + metric.g23 * v.y + metric.g33 * v.z,
     false⟩
  else v

/-- Modelled from the spec: Vector2D/Vector3D::toCovariant, dual to
toContravariant; lowers indices with the covariant metric components when
the vector is contravariant, sets the flag, and is a no-op otherwise. -/
def Vector3D.toCovariant (v : Vector3D) (metric : Coordinates) : Vector3D :=
  if v.covariant then v
  else
    ⟨metric.g_11 * v.x + metric.g_12 * v.y + metric.g_13 * v.z,
     metric.g_12 * v.x + metric.g_22 * v.y + metric.g_23 * v.z,
     metric.g_13 * v.x + metric.g_23 * v.y + metric.g_33 * v.z,
     true⟩

/-- Modelled from the spec: DDX (derivs.cxx is not under the analysed
sources).  Per spec section 4.3 the differencing engine returns the first
derivative along X at the requested output cell location, and per the
derivative documentation in mesh.hxx an unspecified output location
defaults to the location of the input field. -/
def DDX (f : Field3D) (outloc : CellLoc) : Field3D :=
  let ol := if outloc = CELL_DEFAULT then f.loc else outloc
  ⟨FExpr.dX f.data ol, ol⟩

/-- Modelled from the spec: DDY, as DDX but along the Y axis. -/
def DDY (f : Field3D) (outloc : CellLoc) : Field3D :=
  let ol := if outloc = CELL_DEFAULT then f.loc else outloc
  ⟨FExpr.dY f.data ol, ol⟩

/-- Modelled from the spec: DDZ, as DDX but along the Z axis. -/
def DDZ (f : Field3D) (outloc : CellLoc) : Field3D :=
  let ol := if outloc = CELL_DEFAULT then f.loc else outloc
  ⟨FExpr.dZ f.data ol, ol⟩

/-- Modelled from the spec: the Field2D overload of DDX.  The Field2D
derivative interface carries no output-location parameter (see the
indexDDX(Field2D) declaration in mesh.hxx), so the result stays at the
location of the input field. -/
def DDX2D (f : Field2D) : Field2D := ⟨FExpr.dX f.data f.loc, f.loc⟩

/-- Modelled from the spec: the Field2D overload of DDY. -/
def DDY2D (f : Field2D) : Field2D := ⟨FExpr.dY f.data f.loc, f.loc⟩

/-- Modelled from the spec: the Field2D overload of DDZ. -/
def DDZ2D (f : Field2D) : Field2D := ⟨FExpr.dZ f.data f.loc, f.loc⟩

/-- Modelled from the spec: upwind derivative VDDX(v, f), biasing the X
stencil by the velocity sign; vecops.cxx always calls the two-argument
form, whose output location defaults to the location of f. -/
def VDDX (v f : Field3D) : Field3D := ⟨FExpr.vdX v.data f.data, f.loc⟩

/-- Modelled from the spec: upwind derivative VDDY(v, f). -/
def VDDY (v f : Field3D) : Field3D := ⟨FExpr.vdY v.data f.data, f.loc⟩

/-- Modelled from the spec: upwind derivative VDDZ(v, f). -/
def VDDZ (v f : Field3D) : Field3D := ⟨FExpr.vdZ v.data f.data, f.loc⟩

/-- Modelled from the spec: flux derivative FDDX(v, f, method, outloc) for
conservation-law terms; an unspecified output location defaults to the
location of f. -/
def FDDX (v f : Field3D) (method : DiffMethod) (outloc : CellLoc) : Field3D :=
  let ol := if outloc = CELL_DEFAULT then f.loc else outloc
  ⟨FExpr.fdX v.data f.data method ol, ol⟩

/-- Modelled from the spec: flux derivative FDDY(v, f, method, outloc). -/
def FDDY (v f : Field3D) (method : DiffMethod) (outloc : CellLoc) : Field3D :=
  let ol := if outloc = CELL_DEFAULT then f.loc else outloc
  ⟨FExpr.fdY v.data f.data method ol, ol⟩

/-- Modelled from the spec: flux derivative FDDZ(v, f, method, outloc). -/
def FDDZ (v f : Field3D) (method : DiffMethod) (outloc : CellLoc) : Field3D :=
  let ol := if outloc = CELL_DEFAULT then f.loc else outloc
  ⟨FExpr.fdZ v.data f.data method ol, ol⟩

/-- Modelled from the spec: the Field2D two-argument form of FDDX, with
default method and output location. -/
def FDDX2D (v f : Field2D) : Field2D :=
  ⟨FExpr.fdX v.data f.data DIFF_DEFAULT f.loc, f.loc⟩

/-- Modelled from the spec: the Field2D two-argument form of FDDY. -/
def FDDY2D (v f : Field2D) : Field2D :=
  ⟨FExpr.fdY v.data f.data DIFF_DEFAULT f.loc, f.loc⟩

/-- Modelled from the spec: the Field2D two-argument form of FDDZ. -/
def FDDZ2D (v f : Field2D) : Field2D :=
  ⟨FExpr.fdZ v.data f.data DIFF_DEFAULT f.loc, f.loc⟩

/-!
Vector calculus operators, translated from src/field/vecops.cxx.  The C++
operators take their operands by const reference; each operator is
translated as a `..._call` definition that returns the operator result
together with the caller-visible values of the reference operands after
the call (every assignment in each body targets the result or a local
copy, never an operand, so the operands pass through unchanged), and the
plain operator definition projects out the result.  The global
mesh->coordinates() metric and the mesh->ShiftXderivs flag become explicit
parameters.
-/

/-- Grad(const Field2D &f, CELL_LOC outloc), vecops.cxx lines 36-55.  The
outloc argument is accepted but not used by the body. -/
def Grad2D_call (f : Field2D) (outloc : CellLoc) : Vector2D × Field2D :=
  let result : Vector2D := ⟨DDX2D f, DDY2D f, DDZ2D f, true⟩
  (result, f)

/-- Result of the Field2D Grad overload. -/
def Grad2D (f : Field2D) (outloc : CellLoc) : Vector2D :=
  (Grad2D_call f outloc).1

/-- Grad(const Field3D &f, outloc_x, outloc_y, outloc_z), vecops.cxx lines
57-84: each CELL_DEFAULT axis location is resolved to f.getLocation(). -/
def Grad3D_call (f : Field3D) (outloc_x outloc_y outloc_z : CellLoc) :
    Vector3D × Field3D :=
  let outloc_x := if outloc_x = CELL_DEFAULT then f.getLocation else outloc_x
  let outloc_y := if outloc_y = CELL_DEFAULT then f.getLocation else outloc_y
  let outloc_z := if outloc_z = CELL_DEFAULT then f.getLocation else outloc_z
  let result : Vector3D := ⟨DDX f outloc_x, DDY f outloc_y, DDZ f outloc_z, true⟩
  (result, f)

/-- Result of the per-axis Field3D Grad overload. -/
def Grad3D (f : Field3D) (outloc_x outloc_y outloc_z : CellLoc) : Vector3D :=
  (Grad3D_call f outloc_x outloc_y outloc_z).1

/-- Grad(const Field3D &f, CELL_LOC outloc), vecops.cxx lines 86-92:
CELL_VSHIFT expands to the three axis-specific low locations, any other
location is used for all three axes. -/
def Grad3D_outloc (f : Field3D) (outloc : CellLoc) : Vector3D :=
  if outloc = CELL_VSHIFT then Grad3D f CELL_XLOW CELL_YLOW CELL_ZLOW
  else Grad3D f outloc outloc outloc

/-- Grad_perp(const Field3D &f, outloc_x, outloc_y, outloc_z), vecops.cxx
lines 94-123.  outloc_y is accepted but not used by the body. -/
def Grad_perp_call (metric : Coordinates) (f : Field3D)
    (outloc_x outloc_y outloc_z : CellLoc) : Vector3D × Field3D :=
  let outloc_x := if outloc_x = CELL_DEFAULT then f.getLocation else outloc_x
  let outloc_z := if outloc_z = CELL_DEFAULT then f.getLocation else outloc_z
  let parcoef := Field3D.ofConst 1 / (metric.J * metric.Bxy)
  let parcoef := parcoef * parcoef
  let result : Vector3D :=
    ⟨DDX f outloc_x - parcoef * metric.g_12 * DDY f outloc_x,
     Field3D.ofConst 0,
     DDZ f outloc_z - parcoef * metric.g_23 * DDY f outloc_z,
     true⟩
  (result, f)

/-- Result of Grad_perp. -/
def Grad_perp (metric : Coordinates) (f : Field3D)
    (outloc_x outloc_y outloc_z : CellLoc) : Vector3D :=
  (Grad_perp_call metric f outloc_x outloc_y outloc_z).1

/-- Div(const Vector2D &v, CELL_LOC outloc), vecops.cxx lines 129-153.
The outloc argument is accepted but not used by the body; v is copied,
converted to contravariant components, and the flux-form sum is divided
by the Jacobian. -/
def Div2D_call (metric : Coordinates) (v : Vector2D) (outloc : CellLoc) :
    Field2D × Vector2D :=
  let vcn := v
  let vcn := vcn.toContravariant metric
  let result := DDX2D (metric.J * vcn.x)
  let result := result + DDY2D (metric.J * vcn.y)
  let result := result + DDZ2D (metric.J * vcn.z)
  let result := result / metric.J
  (result, v)

/-- Result of the Vector2D Div overload. -/
def Div2D (metric : Coordinates) (v : Vector2D) (outloc : CellLoc) : Field2D :=
  (Div2D_call metric v outloc).1

/-- Div(const Vector3D &v, CELL_LOC outloc), vecops.cxx lines 155-182:
CELL_DEFAULT resolves to CELL_CENTRE, then the flux-form sum of the three
axis derivatives of J times the contravariant components is divided by J. -/
def Div3D_call (metric : Coordinates) (v : Vector3D) (outloc : CellLoc) :
    Field3D × Vector3D :=
  let outloc := if outloc = CELL_DEFAULT then CELL_CENTRE else outloc
  let vcn := v
  let vcn := vcn.toContravariant metric
  let result := DDX (metric.J * vcn.x) outloc
  let result := result + DDY (metric.J * vcn.y) outloc
  let result := result + DDZ (metric.J * vcn.z) outloc
  let result := result / metric.J
  (result, v)

/-- Result of the Vector3D Div overload. -/
def Div3D (metric : Coordinates) (v : Vector3D) (outloc : CellLoc) : Field3D :=
  (Div3D_call metric v outloc).1

/-- Div(const Vector2D &v, const Field2D &f), vecops.cxx lines 188-211:
flux-method divergence of an advected Field2D. -/
def Div2D_flux_call (metric : Coordinates) (v : Vector2D) (f : Field2D) :
    Field2D × (Vector2D × Field2D) :=
  let vcn := v
  let vcn := vcn.toContravariant metric
  let result := FDDX2D (metric.J * vcn.x) f
  let result := result + FDDY2D (metric.J * vcn.y) f
  let result := result + FDDZ2D (metric.J * vcn.z) f
  let result := result / metric.J
  (result, (v, f))

/-- Result of the Vector2D flux Div overload. -/
def Div2D_flux (metric : Coordinates) (v : Vector2D) (f : Field2D) : Field2D :=
  (Div2D_flux_call metric v f).1

/-- Div(const Vector3D &v, const Field3D &f, DIFF_METHOD method, CELL_LOC
outloc), vecops.cxx lines 213-240: CELL_DEFAULT resolves to CELL_CENTRE,
each axis term is a flux derivative against the advected field f. -/
def Div3D_flux_call (metric : Coordinates) (v : Vector3D) (f : Field3D)
    (method : DiffMethod) (outloc : CellLoc) : Field3D × (Vector3D × Field3D) :=
  let outloc := if outloc = CELL_DEFAULT then CELL_CENTRE else outloc
  let vcn := v
  let vcn := vcn.toContravariant metric
  let result := FDDX (metric.J * vcn.x) f method outloc
  let result := result + FDDY (metric.J * vcn.y) f method outloc
  let result := result + FDDZ (metric.J * vcn.z) f method outloc
  let result := result / metric.J
  (result, (v, f))

/-- Result of the (method, outloc) flux Div overload. -/
def Div3D_flux (metric : Coordinates) (v : Vector3D) (f : Field3D)
    (method : DiffMethod) (outloc : CellLoc) : Field3D :=
  (Div3D_flux_call metric v f method outloc).1

/-- Div(const Vector3D &v, const Field3D &f, CELL_LOC outloc, DIFF_METHOD
method), vecops.cxx lines 242-245: delegates to the (method, outloc)
overload with the arguments swapped. -/
def Div3D_flux_swap (metric : Coordinates) (v : Vector3D) (f : Field3D)
    (outloc : CellLoc) (method : DiffMethod) : Field3D :=
  Div3D_flux metric v f method outloc

/-- Div(const Vector3D &v, const Field3D &f), vecops.cxx lines 247-250:
delegates with default method and location. -/
def Div3D_flux_default (metric : Coordinates) (v : Vector3D) (f : Field3D) :
    Field3D :=
  Div3D_flux metric v f DIFF_DEFAULT CELL_DEFAULT

/-- Curl(const Vector2D &v, CELL_LOC outloc), vecops.cxx lines 256-284.
The outloc argument is accepted but not used by the body; v is copied and
converted to covariant components, the contravariant curl components are
the antisymmetric cross-axis derivative differences divided by J, and
under mesh->ShiftXderivs the shift-torsion term is subtracted from z. -/
def Curl2D_call (shiftXderivs : Bool) (metric : Coordinates) (v : Vector2D)
    (outloc : CellLoc) : Vector2D × Vector2D :=
  let vco := v
  let vco := vco.toCovariant metric
  let rx := (DDY2D vco.z - DDZ2D vco.y) / metric.J
  let ry := (DDZ2D vco.x - DDX2D vco.z) / metric.J
  let rz := (DDX2D vco.y - DDY2D vco.x) / metric.J
  let rz := if shiftXderivs then rz - metric.ShiftTorsion * vco.z / metric.J
            else rz
  (⟨rx, ry, rz, false⟩, v)

/-- Result of the Vector2D Curl overload. -/
def Curl2D (shiftXderivs : Bool) (metric : Coordinates) (v : Vector2D)
    (outloc : CellLoc) : Vector2D :=
  (Curl2D_call shiftXderivs metric v outloc).1

/-- Curl(const Vector3D &v, outloc_x, outloc_y, outloc_z), vecops.cxx
lines 286-317: as the 2D overload but each component's derivatives are
taken at that component's requested output location. -/
def Curl3D_call (shiftXderivs : Bool) (metric : Coordinates) (v : Vector3D)
    (outloc_x outloc_y outloc_z : CellLoc) : Vector3D × Vector3D :=
  let vco := v
  let vco := vco.toCovariant metric
  let rx := (DDY vco.z outloc_x - DDZ vco.y outloc_x) / metric.J
  let ry := (DDZ vco.x outloc_y - DDX vco.z outloc_y) / metric.J
  let rz := (DDX vco.y outloc_z - DDY vco.x outloc_z) / metric.J
  let rz := if shiftXderivs then rz - metric.ShiftTorsion * vco.z / metric.J
            else rz
  (⟨rx, ry, rz, false⟩, v)

/-- Result of the per-axis Vector3D Curl overload. -/
def Curl3D (shiftXderivs : Bool) (metric : Coordinates) (v : Vector3D)
    (outloc_x outloc_y outloc_z : CellLoc) : Vector3D :=
  (Curl3D_call shiftXderivs metric v outloc_x outloc_y outloc_z).1

/-- Curl(const Vector3D &v, CELL_LOC outloc), vecops.cxx lines 319-325:
CELL_VSHIFT expands to the three axis-specific low locations. -/
def Curl3D_outloc (shiftXderivs : Bool) (metric : Coordinates) (v : Vector3D)
    (outloc : CellLoc) : Vector3D :=
  if outloc = CELL_VSHIFT then
    Curl3D shiftXderivs metric v CELL_XLOW CELL_YLOW CELL_ZLOW
  else Curl3D shiftXderivs metric v outloc outloc outloc

/-- The Curl computation with the shift-torsion term absent: the body of
Curl with the conditional correction removed, used to state the
conditionality property of the torsion term. -/
def CurlNoTorsion (metric : Coordinates) (v : Vector3D)
    (outloc_x outloc_y outloc_z : CellLoc) : Vector3D :=
  let vco := v.toCovariant metric
  ⟨(DDY vco.z outloc_x - DDZ vco.y outloc_x) / metric.J,
   (DDZ vco.x outloc_y - DDX vco.z outloc_y) / metric.J,
   (DDX vco.y outloc_z - DDY vco.x outloc_z) / metric.J,
   false⟩

/-- V_dot_Grad with a scalar-field target, vecops.cxx lines 331-413.  The
four C++ overloads (Vector2D/Vector3D velocity against Field2D/Field3D
target) have textually identical bodies; with one carrier for both field
ranks they collapse to this single definition.  The velocity is copied and
converted to contravariant components (the conversion reads the global
mesh metric, passed here explicitly). -/
def V_dot_Grad_scalar_call (metric : Coordinates) (v : Vector3D) (f : Field3D) :
    Field3D × (Vector3D × Field3D) :=
  let vcn := v
  let vcn := vcn.toContravariant metric
  let result := VDDX vcn.x f + VDDY vcn.y f + VDDZ vcn.z f
  (result, (v, f))

/-- Result of V_dot_Grad with a scalar-field target. -/
def V_dot_Grad_scalar (metric : Coordinates) (v : Vector3D) (f : Field3D) :
    Field3D :=
  (V_dot_Grad_scalar_call metric v f).1

/-- V_dot_Grad with a vector-field target, vecops.cxx lines 415-636.  The
four C++ overloads (Vector2D/Vector3D velocity against Vector2D/Vector3D
target) have textually identical bodies; with one carrier they collapse to
this single definition.  The velocity is copied and converted to
contravariant components before the branch; the branch is selected by the
target's covariant flag: the covariant branch subtracts the
Christoffel-symbol corrections grouped by lower index pair and returns a
covariant result, the contravariant branch adds the corrections grouped by
upper index and returns a contravariant result. -/
def V_dot_Grad_vector_call (metric : Coordinates) (v a : Vector3D) :
    Vector3D × (Vector3D × Vector3D) :=
  let vcn := v
  let vcn := vcn.toContravariant metric
  let result :=
    if a.covariant then
      let rx := VDDX vcn.x a.x + VDDY vcn.y a.x + VDDZ vcn.z a.x
      let rx := rx - vcn.x * (metric.G1_11 * a.x + metric.G2_11 * a.y + metric.G3_11 * a.z)
      let rx := rx - vcn.y * (metric.G1_12 * a.x + metric.G2_12 * a.y)
      let rx := rx - vcn.z * (metric.G1_13 * a.x + metric.G3_13 * a.z)
      let ry := VDDX vcn.x a.y + VDDY vcn.y a.y + VDDZ vcn.z a.y
      let ry := ry - vcn.x * (metric.G1_12 * a.x + metric.G2_12 * a.y)
      let ry := ry - vcn.y * (metric.G1_22 * a.x + metric.G2_22 * a.y + metric.G3_22 * a.z)
      let ry := ry - vcn.z * (metric.G2_23 * a.y + metric.G3_23 * a.z)
      let rz := VDDX vcn.x a.z + VDDY vcn.y a.z + VDDZ vcn.z a.z
      let rz := rz - vcn.x * (metric.G1_13 * a.x + metric.G3_13 * a.z)
      let rz := rz - vcn.y * (metric.G2_23 * a.y + metric.G3_23 * a.z)
      let rz := rz - vcn.z * (metric.G1_33 * a.x + metric.G2_33 * a.y + metric.G3_33 * a.z)
      (⟨rx, ry, rz, true⟩ : Vector3D)
    else
      let rx := VDDX vcn.x a.x + VDDY vcn.y a.x + VDDZ vcn.z a.x
      let rx := rx + vcn.x * (metric.G1_11 * a.x + metric.G1_12 * a.y + metric.G1_13 * a.z)
      let rx := rx + vcn.y * (metric.G1_12 * a.x + metric.G1_22 * a.y)
      let rx := rx + vcn.z * (metric.G1_13 * a.x + metric.G1_33 * a.z)
      let ry := VDDX vcn.x a.y + VDDY vcn.y a.y + VDDZ vcn.z a.y
      let ry := ry + vcn.x * (metric.G2_11 * a.x + metric.G2_12 * a.y)
      let ry := ry + vcn.y * (metric.G2_12 * a.x + metric.G2_22 * a.y + metric.G2_23 * a.z)
      let ry := ry + vcn.z * (metric.G2_23 * a.y + metric.G2_33 * a.z)
      let rz := VDDX vcn.x a.z + VDDY vcn.y a.z + VDDZ vcn.z a.z
      let rz := rz + vcn.x * (metric.G3_11 * a.x + metric.G3_13 * a.z)
      let rz := rz + vcn.y * (metric.G3_22 * a.y + metric.G3_23 * a.z)
      let rz := rz + vcn.z * (metric.G3_13 * a.x + metric.G3_23 * a.y + metric.G3_33 * a.z)
      (⟨rx, ry, rz, false⟩ : Vector3D)
  (result, (v, a))

/-- Result of V_dot_Grad with a vector-field target. -/
def V_dot_Grad_vector (metric : Coordinates) (v a : Vector3D) : Vector3D :=
  (V_dot_Grad_vector_call metric v a).1

/-- Grid data source consumed by Mesh::get: whether each variable exists,
and its scalar values when present.  Field-valued variables read from the
source are represented by the opaque FExpr.var expression. -/
structure GridDataSource where
  hasVar : VarId → Bool
  ival : VarId → Int
  rval : VarId → Rat

/-- Mesh state relevant to the analysed contracts: the grid data source,
the lazily created coordinate system pointer (mesh.hxx line 603, a null
pointer modelled as none), and the object the private allocator
createDefaultCoordinates would produce.  The allocator itself is outside
the analysed sources; per spec section 4.2 it always yields a valid
default Coordinates object. -/
structure Mesh where
  source : GridDataSource
  coords : Option Coordinates
  createDefaultCoordinates : Coordinates

/-- Mesh::coordinates(), mesh.hxx lines 467-476: return the cached pointer
when set, otherwise create the default coordinate system, store it, and
return it.  The returned pointer is modelled as an Option Coordinates and
the member write as the returned updated Mesh. -/
def Mesh.coordinates (m : Mesh) : Option Coordinates × Mesh :=
  match m.coords with
  | some c => (some c, m)
  | none =>
    let c := m.createDefaultCoordinates
    (some c, { m with coords := some c })

/-- Modelled from the spec: Mesh::get(int&, name) is implemented outside
the analysed sources; mesh.hxx lines 123-129 document that the value is
put into the variable and the call returns zero if successful, non-zero on
failure.  The failure status is modelled as 1 and the variable keeps its
previous value on failure. -/
def Mesh.getInt (m : Mesh) (ival : Int) (name : VarId) : Int × Int :=
  if m.source.hasVar name then (m.source.ival name, 0) else (ival, 1)

/-- Modelled from the spec: Mesh::get(BoutReal&, name), mesh.hxx lines
131-137, as getInt but for a real value. -/
def Mesh.getBoutReal (m : Mesh) (rval : Rat) (name : VarId) : Rat × Int :=
  if m.source.hasVar name then (m.source.rval name, 0) else (rval, 1)

/-- Modelled from the spec: Mesh::get(Field2D&, name, def), mesh.hxx lines
139-147: the variable is set to the value read from the source, or to the
caller-supplied default when the variable is not found, in which case a
non-zero status (modelled as 1) is returned. -/
def Mesh.getField2D (m : Mesh) (name : VarId) (deflt : Rat) : Field2D × Int :=
  if m.source.hasVar name then (⟨FExpr.var name, CELL_CENTRE⟩, 0)
  else (⟨FExpr.cst deflt, CELL_CENTRE⟩, 1)

/-- Modelled from the spec: Mesh::get(Field3D&, name, def, communicate),
mesh.hxx lines 149-157, as getField2D. -/
def Mesh.getField3D (m : Mesh) (name : VarId) (deflt : Rat) : Field3D × Int :=
  if m.source.hasVar name then (⟨FExpr.var name, CELL_CENTRE⟩, 0)
  else (⟨FExpr.cst deflt, CELL_CENTRE⟩, 1)

/-- Modelled from the spec: Mesh::get(Vector2D&, name), mesh.hxx lines
159-170: reads three component fields named by appending an underscored
suffix when the vector is covariant and a plain suffix otherwise, every
component reverting to the zero default when missing, and returns zero
always. -/
def Mesh.getVector2D (m : Mesh) (var : Vector2D) (name : Nat) : Vector2D × Int :=
  let usc := var.covariant
  let cx := (m.getField2D ⟨name, some (usc, VComp.cx)⟩ 0).1
  let cy := (m.getField2D ⟨name, some (usc, VComp.cy)⟩ 0).1
  let cz := (m.getField2D ⟨name, some (usc, VComp.cz)⟩ 0).1
  (⟨cx, cy, cz, var.covariant⟩, 0)

/-- Modelled from the spec: Mesh::get(Vector3D&, name), mesh.hxx lines
172-183, as getVector2D but reading Field3D components. -/
def Mesh.getVector3D (m : Mesh) (var : Vector3D) (name : Nat) : Vector3D × Int :=
  let usc := var.covariant
  let cx := (m.getField3D ⟨name, some (usc, VComp.cx)⟩ 0).1
  let cy := (m.getField3D ⟨name, some (usc, VComp.cy)⟩ 0).1
  let cz := (m.getField3D ⟨name, some (usc, VComp.cz)⟩ 0).1
  (⟨cx, cy, cz, var.covariant⟩, 0)

/-!
Concrete sample inputs used by counterexamples and witnesses.
-/

/-- Metric whose entries are all the constant-one field. -/
def constCoords : Coordinates :=
  let c := Field3D.ofConst 1
  ⟨c, c, c, c, c, c, c, c, c, c, c, c, c, c, c,
   c, c, c, c, c, c, c, c, c, c, c, c, c, c, c⟩

/-- Sample scalar field at the centre location. -/
def sampleField : Field3D := ⟨FExpr.var ⟨0, none⟩, CELL_CENTRE⟩

/-- Sample contravariant vector staggered at the X-low location. -/
def xlowVector : Vector3D :=
  ⟨⟨FExpr.var ⟨1, none⟩, CELL_XLOW⟩,
   ⟨FExpr.var ⟨2, none⟩, CELL_XLOW⟩,
   ⟨FExpr.var ⟨3, none⟩, CELL_XLOW⟩,
   false⟩

/-- Grid data source with no variables at all. -/
def emptySource : GridDataSource := ⟨fun _ => false, fun _ => 0, fun _ => 0⟩

/-- Mesh over the empty source with no coordinate system set. -/
def emptyMesh : Mesh := ⟨emptySource, none, constCoords⟩

/-!
Claim theorems.
-/

/-- C1 counterexample: the claim says an operator called with CELL_DEFAULT
inherits the location of its primary field operand, but Div on a Vector3D
staggered at CELL_XLOW returns a field at CELL_CENTRE, not at the
operand's location (vecops.cxx lines 165-166 resolve CELL_DEFAULT to
CELL_CENTRE). -/
theorem div3d_cell_default_not_operand_location :
    (Div3D constCoords xlowVector CELL_DEFAULT).loc = CELL_CENTRE ∧
    xlowVector.x.loc = CELL_XLOW ∧
    (Div3D constCoords xlowVector CELL_DEFAULT).loc ≠ xlowVector.x.loc := by
  decide

/-- C1 (amended): with CELL_DEFAULT, Grad on a Field3D resolves each axis
output location to the scalar operand's location, per axis and
independently; Div on a Vector3D and the flux-form Div resolve
CELL_DEFAULT to CELL_CENTRE regardless of the operand's location. -/
theorem outloc_defaulting_amended_characterization (metric : Coordinates)
    (f g : Field3D) (v : Vector3D) (ox oz : CellLoc) :
    ((Grad3D f CELL_DEFAULT CELL_DEFAULT CELL_DEFAULT).x.loc = f.loc ∧
     (Grad3D f CELL_DEFAULT CELL_DEFAULT CELL_DEFAULT).y.loc = f.loc ∧
     (Grad3D f CELL_DEFAULT CELL_DEFAULT CELL_DEFAULT).z.loc = f.loc) ∧
    ((Grad3D f ox CELL_DEFAULT oz).y.loc = f.loc) ∧
    ((Grad3D_outloc f CELL_DEFAULT).x.loc = f.loc) ∧
    ((Div3D metric v CELL_DEFAULT).loc = CELL_CENTRE) ∧
    ((Div3D_flux metric v g DIFF_DEFAULT CELL_DEFAULT).loc = CELL_CENTRE) := by
  obtain ⟨d, l⟩ := f
  refine ⟨⟨?_, ?_, ?_⟩, ?_, ?_, rfl, rfl⟩ <;> cases l <;> rfl

/-- C2: for V_dot_Grad with a vector-field target, the correction branch
is selected solely by the target's covariant flag (the velocity enters
both branches only through its conversion to contravariant form): with a
covariant target the Christoffel corrections are subtracted and the result
is covariant; with a contravariant target they are added and the result is
contravariant. -/
theorem v_dot_grad_vector_target_branching (metric : Coordinates)
    (v a : Vector3D) :
    (V_dot_Grad_vector metric v a).covariant = a.covariant ∧
    V_dot_Grad_vector metric v a =
      (let vcn := v.toContravariant metric
       if a.covariant then
         ⟨VDDX vcn.x a.x + VDDY vcn.y a.x + VDDZ vcn.z a.x
            - vcn.x * (metric.G1_11 * a.x + metric.G2_11 * a.y + metric.G3_11 * a.z)
            - vcn.y * (metric.G1_12 * a.x + metric.G2_12 * a.y)
            - vcn.z * (metric.G1_13 * a.x + metric.G3_13 * a.z),
          VDDX vcn.x a.y + VDDY vcn.y a.y + VDDZ vcn.z a.y
            - vcn.x * (metric.G1_12 * a.x + metric.G2_12 * a.y)
            - vcn.y * (metric.G1_22 * a.x + metric.G2_22 * a.y + metric.G3_22 * a.z)
            - vcn.z * (metric.G2_23 * a.y + metric.G3_23 * a.z),
          VDDX vcn.x a.z + VDDY vcn.y a.z + VDDZ vcn.z a.z
            - vcn.x * (metric.G1_13 * a.x + metric.G3_13 * a.z)
            - vcn.y * (metric.G2_23 * a.y + metric.G3_23 * a.z)
            - vcn.z * (metric.G1_33 * a.x + metric.G2_33 * a.y + metric.G3_33 * a.z),
          true⟩
       else
         ⟨VDDX vcn.x a.x + VDDY vcn.y a.x + VDDZ vcn.z a.x
            + vcn.x * (metric.G1_11 * a.x + metric.G1_12 * a.y + metric.G1_13 * a.z)
            + vcn.y * (metric.G1_12 * a.x + metric.G1_22 * a.y)
            + vcn.z * (metric.G1_13 * a.x + metric.G1_33 * a.z),
          VDDX vcn.x a.y + VDDY vcn.y a.y + VDDZ vcn.z a.y
            + vcn.x * (metric.G2_11 * a.x + metric.G2_12 * a.y)
            + vcn.y * (metric.G2_12 * a.x + metric.G2_22 * a.y + metric.G2_23 * a.z)
            + vcn.z * (metric.G2_23 * a.y + metric.G2_33 * a.z),
          VDDX vcn.x a.z + VDDY vcn.y a.z + VDDZ vcn.z a.z
            + vcn.x * (metric.G3_11 * a.x + metric.G3_13 * a.z)
            + vcn.y * (metric.G3_22 * a.y + metric.G3_23 * a.z)
            + vcn.z * (metric.G3_13 * a.x + metric.G3_23 * a.y + metric.G3_33 * a.z),
          false⟩) := by
  obtain ⟨ax, ay, az, ac⟩ := a
  cases ac <;> exact ⟨rfl, rfl⟩

/-- C3: Curl converts its operand to covariant components, each
contravariant result component is the antisymmetric difference of the two
cross-axis derivatives divided by J, the shift-torsion correction is
subtracted from the z-component exactly when the mesh's shifted-X
derivative mode is enabled, and with the mode disabled the output equals
the computation with the torsion term absent (both for the per-axis
Vector3D overload and for the Vector2D overload). -/
theorem curl_formula_and_shift_torsion_conditionality
    (shiftXderivs : Bool) (metric : Coordinates) (v : Vector3D)
    (ox oy oz oloc : CellLoc) :
    (Curl3D shiftXderivs metric v ox oy oz =
      (let vco := v.toCovariant metric
       ⟨(DDY vco.z ox - DDZ vco.y ox) / metric.J,
        (DDZ vco.x oy - DDX vco.z oy) / metric.J,
        if shiftXderivs then
          (DDX vco.y oz - DDY vco.x oz) / metric.J
            - metric.ShiftTorsion * vco.z / metric.J
        else (DDX vco.y oz - DDY vco.x oz) / metric.J,
        false⟩)) ∧
    (shiftXderivs = false →
      Curl3D shiftXderivs metric v ox oy oz = CurlNoTorsion metric v ox oy oz) ∧
    (shiftXderivs = true →
      (Curl3D shiftXderivs metric v ox oy oz).x = (CurlNoTorsion metric v ox oy oz).x ∧
      (Curl3D shiftXderivs metric v ox oy oz).y = (CurlNoTorsion metric v ox oy oz).y ∧
      (Curl3D shiftXderivs metric v ox oy oz).z =
        (CurlNoTorsion metric v ox oy oz).z
          - metric.ShiftTorsion * (v.toCovariant metric).z / metric.J) ∧
    (Curl2D shiftXderivs metric v oloc =
      (let vco := v.toCovariant metric
       ⟨(DDY2D vco.z - DDZ2D vco.y) / metric.J,
        (DDZ2D vco.x - DDX2D vco.z) / metric.J,
        if shiftXderivs then
          (DDX2D vco.y - DDY2D vco.x) / metric.J
            - metric.ShiftTorsion * vco.z / metric.J
        else (DDX2D vco.y - DDY2D vco.x) / metric.J,
        false⟩)) := by
  cases shiftXderivs
  · refine ⟨rfl, fun _ => rfl, fun h => ?_, rfl⟩
    cases h
  · refine ⟨rfl, fun h => ?_, fun _ => ⟨rfl, rfl, rfl⟩, rfl⟩
    cases h

/-- C3 witness: with the shifted-X mode disabled, Curl at concrete inputs
coincides with the torsion-free computation. -/
theorem curl_shift_torsion_disabled_witness :
    Curl3D false constCoords xlowVector CELL_CENTRE CELL_CENTRE CELL_CENTRE
      = CurlNoTorsion constCoords xlowVector CELL_CENTRE CELL_CENTRE CELL_CENTRE :=
  (curl_formula_and_shift_torsion_conditionality false constCoords xlowVector
    CELL_CENTRE CELL_CENTRE CELL_CENTRE CELL_CENTRE).2.1 rfl

/-- C4: both Div overloads compute the flux form: the operand is converted
to contravariant components, the result is the sum over the three axes of
the first derivative along that axis of J times the corresponding
contravariant component, divided by J, and the returned value is a scalar
field. -/
theorem div_flux_form_characterization (metric : Coordinates)
    (v w : Vector3D) (outloc : CellLoc) :
    (Div3D metric v outloc =
      (let ol := if outloc = CELL_DEFAULT then CELL_CENTRE else outloc
       let vcn := v.toContravariant metric
       (DDX (metric.J * vcn.x) ol + DDY (metric.J * vcn.y) ol
          + DDZ (metric.J * vcn.z) ol) / metric.J)) ∧
    (Div2D metric w outloc =
      (let vcn := w.toContravariant metric
       (DDX2D (metric.J * vcn.x) + DDY2D (metric.J * vcn.y)
          + DDZ2D (metric.J * vcn.z)) / metric.J)) :=
  ⟨rfl, rfl⟩

/-- C5: the two flux-divergence overloads taking (outloc, method) and
(method, outloc) are extensionally equal. -/
theorem div_flux_overloads_argument_order (metric : Coordinates)
    (v : Vector3D) (f : Field3D) (method : DiffMethod) (outloc : CellLoc) :
    Div3D_flux_swap metric v f outloc method
      = Div3D_flux metric v f method outloc :=
  rfl

/-- C6 counterexample: the claim says both Grad overloads return the
derivatives at the requested locations, but the Field2D overload ignores
its requested output location (vecops.cxx lines 36-55 never read outloc):
requesting CELL_XLOW on a centre field yields the centre derivative, not
the X-low one. -/
theorem grad2d_requested_location_ignored :
    (Grad2D sampleField CELL_XLOW).x ≠ DDX sampleField CELL_XLOW ∧
    ((Grad2D sampleField CELL_XLOW).x).loc ≠ CELL_XLOW := by
  decide

/-- C6 (amended): the Field3D Grad overload returns the per-axis first
derivatives at the requested per-axis locations (CELL_DEFAULT resolving to
the operand's location); the Field2D overload ignores the requested
location and differentiates at the field's own location; the covariant
flag is true for both overloads. -/
theorem grad_components_and_covariance_amended (f : Field3D)
    (ox oy oz oloc : CellLoc) :
    (Grad3D f ox oy oz =
      ⟨DDX f (if ox = CELL_DEFAULT then f.loc else ox),
       DDY f (if oy = CELL_DEFAULT then f.loc else oy),
       DDZ f (if oz = CELL_DEFAULT then f.loc else oz), true⟩) ∧
    (Grad2D f oloc = ⟨DDX2D f, DDY2D f, DDZ2D f, true⟩) ∧
    (ox ≠ CELL_DEFAULT → (Grad3D f ox oy oz).x.loc = ox) ∧
    (oy ≠ CELL_DEFAULT → (Grad3D f ox oy oz).y.loc = oy) ∧
    (oz ≠ CELL_DEFAULT → (Grad3D f ox oy oz).z.loc = oz) := by
  refine ⟨rfl, rfl, fun h => ?_, fun h => ?_, fun h => ?_⟩ <;>
    simp [Grad3D, Grad3D_call, DDX, DDY, DDZ, Field3D.getLocation, h]

/-- C6 witness: an explicitly requested staggered location is honoured per
axis by the Field3D overload. -/
theorem grad3d_requested_location_witness :
    (Grad3D sampleField CELL_XLOW CELL_YLOW CELL_ZLOW).x.loc = CELL_XLOW ∧
    (Grad3D sampleField CELL_XLOW CELL_YLOW CELL_ZLOW).y.loc = CELL_YLOW ∧
    (Grad3D sampleField CELL_XLOW CELL_YLOW CELL_ZLOW).z.loc = CELL_ZLOW :=
  ⟨(grad_components_and_covariance_amended sampleField CELL_XLOW CELL_YLOW
      CELL_ZLOW CELL_CENTRE).2.2.1 (by decide),
   (grad_components_and_covariance_amended sampleField CELL_XLOW CELL_YLOW
      CELL_ZLOW CELL_CENTRE).2.2.2.1 (by decide),
   (grad_components_and_covariance_amended sampleField CELL_XLOW CELL_YLOW
      CELL_ZLOW CELL_CENTRE).2.2.2.2 (by decide)⟩

/-- C7: Grad_perp returns a covariant vector whose y-component is exactly
zero, whose x-component is DDX(f) minus the square of 1/(J Bxy) times g_12
times DDY(f), and whose z-component is DDZ(f) minus the square of
1/(J Bxy) times g_23 times DDY(f). -/
theorem grad_perp_formula_characterization (metric : Coordinates)
    (f : Field3D) (outloc_x outloc_y outloc_z : CellLoc) :
    Grad_perp metric f outloc_x outloc_y outloc_z =
      (let olx := if outloc_x = CELL_DEFAULT then f.loc else outloc_x
       let olz := if outloc_z = CELL_DEFAULT then f.loc else outloc_z
       let parcoef := Field3D.ofConst 1 / (metric.J * metric.Bxy)
       ⟨DDX f olx - parcoef * parcoef * metric.g_12 * DDY f olx,
        Field3D.ofConst 0,
        DDZ f olz - parcoef * parcoef * metric.g_23 * DDY f olz,
        true⟩) :=
  rfl

/-- C8: no vector-calculus operator mutates an operand passed by const
reference: in the statement-by-statement state-passing translation of each
operator body the caller-visible operand values after the call equal the
values passed in, for every operator and every input; the internal
covariant or contravariant conversion acts only on the local copy. -/
theorem operators_preserve_const_ref_operands
    (shiftXderivs : Bool) (metric : Coordinates) (f g : Field3D)
    (v a : Vector3D) (ox oy oz oloc : CellLoc) (method : DiffMethod) :
    (Grad2D_call f oloc).2 = f ∧
    (Grad3D_call f ox oy oz).2 = f ∧
    (Grad_perp_call metric f ox oy oz).2 = f ∧
    (Div2D_call metric v oloc).2 = v ∧
    (Div3D_call metric v oloc).2 = v ∧
    (Div2D_flux_call metric v g).2 = (v, g) ∧
    (Div3D_flux_call metric v g method oloc).2 = (v, g) ∧
    (Curl2D_call shiftXderivs metric v oloc).2 = v ∧
    (Curl3D_call shiftXderivs metric v ox oy oz).2 = v ∧
    (V_dot_Grad_scalar_call metric v g).2 = (v, g) ∧
    (V_dot_Grad_vector_call metric v a).2 = (v, a) :=
  ⟨rfl, rfl, rfl, rfl, rfl, rfl, rfl, rfl, rfl, rfl, rfl⟩

/-- C9: Mesh::coordinates() never returns a null pointer; after any call
the returned object is the cached one, and calling again on the resulting
Mesh returns the same object with the Mesh unchanged, so the default
coordinate system is created at most once per Mesh. -/
theorem mesh_coordinates_nonnull_lazy_cached (m : Mesh) :
    ((m.coordinates).1.isSome = true) ∧
    ((m.coordinates).2.coords = (m.coordinates).1) ∧
    ((m.coordinates).2.coordinates = ((m.coordinates).1, (m.coordinates).2)) := by
  obtain ⟨s, co, d⟩ := m
  cases co <;> exact ⟨rfl, rfl, rfl⟩

/-- C10: Mesh::get on a Vector2D or Vector3D returns status 0
unconditionally, even over a source with no variables at all, whereas the
int, BoutReal, Field2D and Field3D overloads return a nonzero status when
the variable is missing; a missing vector is therefore not detectable from
the returned status. -/
theorem mesh_get_vector_status_always_zero
    (m : Mesh) (var2 var3 : Vector3D) (name : Nat) (nm : VarId)
    (iv : Int) (rv deflt : Rat) :
    ((m.getVector2D var2 name).2 = 0) ∧
    ((m.getVector3D var3 name).2 = 0) ∧
    (m.source.hasVar nm = false →
      (m.getInt iv nm).2 ≠ 0 ∧ (m.getBoutReal rv nm).2 ≠ 0 ∧
      (m.getField2D nm deflt).2 ≠ 0 ∧ (m.getField3D nm deflt).2 ≠ 0) := by
  refine ⟨rfl, rfl, fun h => ?_⟩
  simp [Mesh.getInt, Mesh.getBoutReal, Mesh.getField2D, Mesh.getField3D, h]

/-- C10 witness: over the empty source, reading a vector reports success
while reading a scalar field reports failure. -/
theorem mesh_get_vector_status_always_zero_witness :
    (emptyMesh.getVector3D xlowVector 5).2 = 0 ∧
    (emptyMesh.getField3D ⟨5, none⟩ 0).2 ≠ 0 :=
  ⟨(mesh_get_vector_status_always_zero emptyMesh xlowVector xlowVector 5
      ⟨5, none⟩ 0 0 0).2.1,
   ((mesh_get_vector_status_always_zero emptyMesh xlowVector xlowVector 5
      ⟨5, none⟩ 0 0 0).2.2 rfl).2.2.2⟩
